import Mathlib

/-!
Verification of the DrugBox request handlers (`box/views.py`) against their
specification.

The embedding models the two Django REST handlers as pure functions over an
explicit database state.  The persistence layer (Django ORM over the models in
`box/models.py`) is modelled by lists of records together with the lookup and
creation operations the handlers invoke.  Request field values arrive as raw
optional strings (`request.data.get(...)` returns the submitted value or
`None`); Python truthiness of such a value means: present and non-empty.

Integer-typed columns matter throughout: `User.fingerprint_id` and
`EventLog.fingerprint_id` are `IntegerField`s, so every write of a submitted
fingerprint value into them runs Python `int(...)` on it, raising `ValueError`
for a non-integer string; and `User.name` is a non-nullable `CharField` while
the enrollment handler always passes `name=None`, so the user insert raises
`IntegrityError` whenever it gets as far as the database.  A handler run that
raises an uncaught exception is modelled as producing no response (`none`) and
leaving the database in the state it had when the exception was raised.
-/

namespace DrugBox

/-- Decimal value of a list of digit characters (most significant first). -/
def digitsToNat (cs : List Char) : Nat :=
  cs.foldl (fun n c => n * 10 + (c.toNat - '0'.toNat)) 0

/-- Model of Python `int(s)` on a submitted string: an optional leading minus
sign followed by a non-empty run of decimal digits parses; any other string
raises `ValueError`, modelled as `none`.  (Surrounding whitespace, a leading
plus sign and digit-group underscores, which Python also accepts, are not
modelled; no claim depends on them.) -/
def parseIntStr (s : String) : Option Int :=
  match s.toList with
  | [] => none
  | '-' :: rest =>
      if !rest.isEmpty && rest.all (fun c => c.isDigit) then
        some (-(digitsToNat rest : Int))
      else none
  | cs =>
      if cs.all (fun c => c.isDigit) then some (digitsToNat cs : Int)
      else none

/-- Python truthiness of a submitted request field: the field is present
(`some`) and the submitted string is non-empty. -/
def truthy : Option String → Bool
  | none => false
  | some s => !s.isEmpty

/-- `box/models.py` `User`: `rfid_code` is a unique string, `fingerprint_id` a
unique integer, and `name` a non-nullable display name — `Option` so that the
NOT NULL constraint can be stated about the value the handler submits.  `id`
is the primary key assigned by the persistence layer. -/
structure User where
  id : Nat
  name : Option String
  rfid_code : String
  fingerprint_id : Int
  deriving Repr, DecidableEq

/-- `box/models.py` `DosageSchedule`: one planned dose for a user on a date,
with the `used` consumption flag (default `false`).  The date is kept as its
ISO string; `dosage` is a `FloatField` which the handler only copies into the
response, never computes with, so it is modelled as an opaque integer value. -/
structure DosageSchedule where
  userId : Nat
  date : String
  dosage : Int
  used : Bool
  deriving Repr, DecidableEq

/-- `box/models.py` `EventLog`: an audit record.  `user` is a nullable
reference (stored as the user id).  `fingerprint_id` is a nullable
`IntegerField`: the stored value is the `int(...)` conversion of the submitted
raw value, so only `NULL` or an integer can ever be stored. -/
structure EventLog where
  event_type : String
  user : Option Nat
  rfid_code : Option String
  fingerprint_id : Option Int
  status : String
  message : String
  deriving Repr, DecidableEq

/-- The persisted state the handlers read and write. -/
structure DBState where
  users : List User
  schedules : List DosageSchedule
  logs : List EventLog
  deriving Repr, DecidableEq

/-- `views.py` `log_event`, i.e. `EventLog.objects.create(...)` with
`event_type="Authentication"`.  The `fingerprint_id` column is an
`IntegerField`, so the persistence layer converts the raw submitted value with
`int(...)`: an absent value stores `NULL`, an integer-literal string stores
its value, and any other string (for example `""` or `"abc"`) makes the
create raise `ValueError` — modelled as `none`, no row written. -/
def log_event (db : DBState) (user : Option Nat) (rfid fp : Option String)
    (status_ message : String) : Option DBState :=
  match fp with
  | none =>
      some { db with logs :=
        db.logs ++ [⟨"Authentication", user, rfid, none, status_, message⟩] }
  | some s =>
      match parseIntStr s with
      | none => none
      | some n =>
          some { db with logs :=
            db.logs ++ [⟨"Authentication", user, rfid, some n, status_, message⟩] }

/-- The JSON body of a handler response:
`msg m` is `{"message": m}`;
`successDosage d` is `{"status": "success", "dosage": d}`;
`successMsg m` is `{"status": "success", "message": m}`. -/
inductive RespBody where
  | msg (message : String)
  | successDosage (dosage : Int)
  | successMsg (message : String)
  deriving Repr, DecidableEq

/-- An HTTP response: status code and JSON body. -/
structure Response where
  code : Nat
  body : RespBody
  deriving Repr, DecidableEq

/-- Completes a handler branch that ends in an audit write followed by a
`return Response(...)`: if the audit write raised, the exception propagates
(no response; the state is whatever it was at the raise, passed as `db`);
otherwise the branch's response is returned alongside the updated state. -/
def afterLog (db : DBState) (resp : Response) : Option DBState → Option Response × DBState
  | none => (none, db)
  | some db1 => (some resp, db1)

/-- `User.objects.get(rfid_code=rfid)`: the user with the given RFID, if any
(unique by the model's constraint). -/
def findUserByRfid (db : DBState) (rfid : String) : Option User :=
  db.users.find? (fun u => u.rfid_code == rfid)

/-- `DosageSchedule.objects.get(user=user, date=date)`: the schedule row for
the given user and date, if any (unique by `unique_together ('user','date')`). -/
def findSchedule (db : DBState) (userId : Nat) (date : String) : Option DosageSchedule :=
  db.schedules.find? (fun d => d.userId == userId && d.date == date)

/-- `ts.split("T")[0]`: the part of the timestamp before the first `T` (the
whole string when no `T` occurs). -/
def dateOf (ts : String) : String :=
  String.mk (ts.toList.takeWhile (fun c => c ≠ 'T'))

/-- The fields a dispense request may carry (raw submitted values). -/
structure DispenseRequest where
  rfid_code : Option String
  fingerprint_id : Option String
  timestamp : Option String
  deriving Repr, DecidableEq

/-- `views.py` `HandleRequestAPIView.post`, step by step: field presence
check, RFID lookup, fingerprint comparison (the unguarded `int(fp)` conversion
aborts the handler when the submitted fingerprint is not an integer literal,
modelled as result `(none, db)`), schedule lookup for the date component of
the timestamp, and the success response.  Each branch's audit write can itself
raise on a non-integer submitted fingerprint (see `log_event`), aborting the
request with nothing written.  Note the source never reads or writes the
schedule's `used` flag. -/
def handleRequest (db : DBState) (req : DispenseRequest) : Option Response × DBState :=
  if !(truthy req.rfid_code && truthy req.fingerprint_id && truthy req.timestamp) then
    afterLog db ⟨400, RespBody.msg "Missing required fields"⟩
      (log_event db none req.rfid_code req.fingerprint_id "Failed" "Missing required fields")
  else
    match findUserByRfid db (req.rfid_code.getD "") with
    | none =>
        afterLog db ⟨404, RespBody.msg "RFID not found"⟩
          (log_event db none req.rfid_code req.fingerprint_id "Failed" "RFID not found")
    | some user =>
        match parseIntStr (req.fingerprint_id.getD "") with
        | none => (none, db)
        | some n =>
            if user.fingerprint_id ≠ n then
              afterLog db ⟨401, RespBody.msg "Fingerprint mismatch"⟩
                (log_event db (some user.id) req.rfid_code req.fingerprint_id "Failed"
                  "Fingerprint mismatch")
            else
              match findSchedule db user.id (dateOf (req.timestamp.getD "")) with
              | none =>
                  afterLog db ⟨403, RespBody.msg "No dosage defined for the specified date"⟩
                    (log_event db (some user.id) req.rfid_code req.fingerprint_id "Failed"
                      "No dosage for date")
              | some dosage_obj =>
                  afterLog db ⟨200, RespBody.successDosage dosage_obj.dosage⟩
                    (log_event db (some user.id) req.rfid_code req.fingerprint_id "Success"
                      "Authentication successful, dosage sent")

/-- The fields an enrollment request may carry (raw submitted values). -/
structure AddUserRequest where
  rfid_code : Option String
  fingerprint_id : Option String
  deriving Repr, DecidableEq

/-- `User.objects.create(name=None, rfid_code=rfid, fingerprint_id=fp)`:
every failure mode of the insert, as an `Except.error` carrying the exception
text `str(e)`.  The `fingerprint_id` column is an `IntegerField`, so the raw
submitted value is converted with `int(...)` while the query is built — a
non-integer value raises `ValueError` before anything reaches the database.
A value that converts reaches the database, where `name` — a non-nullable
`CharField` into which the handler always passes `None` — violates its NOT
NULL constraint (and a reused RFID or fingerprint additionally violates a
UNIQUE constraint), so the insert raises `IntegrityError` unconditionally:
the `Except.ok` branch, kept to mirror the call site's shape, is never
produced. -/
def createUser (db : DBState) (rfid fpRaw : String) : Except String (User × DBState) :=
  match parseIntStr fpRaw with
  | none => Except.error "invalid literal for int with base 10"
  | some n =>
      if db.users.any (fun u => u.rfid_code == rfid) then
        Except.error "UNIQUE constraint failed: box_user.rfid_code"
      else if db.users.any (fun u => u.fingerprint_id == n) then
        Except.error "UNIQUE constraint failed: box_user.fingerprint_id"
      else
        Except.error "NOT NULL constraint failed: box_user.name"

/-- `views.py` `AddUserFromDeviceAPIView.post`: field presence check, then the
guarded create — any creation failure is answered with
`"RFID or fingerprint already exists"` — then the success response.  The audit
write in either failure branch itself raises when the submitted fingerprint is
a present non-integer string, aborting the request with no response and no
row. -/
def addUserFromDevice (db : DBState) (req : AddUserRequest) : Option Response × DBState :=
  if !(truthy req.rfid_code && truthy req.fingerprint_id) then
    afterLog db ⟨400, RespBody.msg "Missing required fields"⟩
      (log_event db none req.rfid_code req.fingerprint_id "Failed"
        "Missing required fields for user creation")
  else
    match createUser db (req.rfid_code.getD "") (req.fingerprint_id.getD "") with
    | Except.error e =>
        afterLog db ⟨400, RespBody.msg "RFID or fingerprint already exists"⟩
          (log_event db none req.rfid_code req.fingerprint_id "Failed" e)
    | Except.ok (user, db1) =>
        afterLog db1 ⟨201, RespBody.successMsg "User added successfully"⟩
          (log_event db1 (some user.id) req.rfid_code req.fingerprint_id "Success"
            "User created by device")

/-- Sample enrolled user, as in the repository's test fixtures (fixtures are
created with a name, so they exist despite the enrollment handler's NOT NULL
bug). -/
def u0 : User := ⟨0, some "Test User", "RFID123456", 12345⟩

/-- Sample schedule row for `u0` on 2025-01-01, not yet consumed. -/
def sched0 : DosageSchedule := ⟨0, "2025-01-01", 5, false⟩

/-- Sample database: one user, one unconsumed schedule row, empty audit log. -/
def db0 : DBState := ⟨[u0], [sched0], []⟩

/-- A fully correct dispense request for `u0` on the scheduled date. -/
def okReq : DispenseRequest :=
  ⟨some "RFID123456", some "12345", some "2025-01-01T10:30:00"⟩

/-- A dispense request for `u0` whose fingerprint value is not an integer
literal. -/
def badFpReq : DispenseRequest :=
  ⟨some "RFID123456", some "abc", some "2025-01-01T10:30:00"⟩

/-- The empty database. -/
def dbEmpty : DBState := ⟨[], [], []⟩

/-- An enrollment request with a fresh RFID and a non-integer fingerprint. -/
def badFpAdd : AddUserRequest := ⟨some "R1", some "abc"⟩

example : (handleRequest db0 okReq).1 = some ⟨200, RespBody.successDosage 5⟩ := by decide

/-- An audit write with an absent fingerprint stores `NULL` and succeeds. -/
theorem log_event_none_fp (db : DBState) (u : Option Nat) (r : Option String)
    (st m : String) :
    log_event db u r none st m =
      some { db with logs := db.logs ++ [⟨"Authentication", u, r, none, st, m⟩] } := rfl

/-- An audit write whose submitted fingerprint parses to `n` stores `n` and
succeeds.  (`parseIntStr "" = none`, so the hypothesis forces the field to be
present.) -/
theorem log_event_of_parse (db : DBState) (u : Option Nat) (r fp : Option String)
    (n : Int) (st m : String) (hp : parseIntStr (fp.getD "") = some n) :
    log_event db u r fp st m =
      some { db with logs := db.logs ++ [⟨"Authentication", u, r, some n, st, m⟩] } := by
  cases fp with
  | none =>
      rw [Option.getD_none] at hp
      rw [show parseIntStr "" = none from rfl] at hp
      exact Option.noConfusion hp
  | some s =>
      simp only [Option.getD_some] at hp
      simp [log_event, hp]

/-- A branch ending in an audit write appends exactly one log row when it
produces a response, and none when the audit write raised. -/
theorem afterLog_log_count (db : DBState) (resp : Response) (u : Option Nat)
    (r fp : Option String) (st m : String) :
    (afterLog db resp (log_event db u r fp st m)).2.logs.length =
      db.logs.length +
        (if (afterLog db resp (log_event db u r fp st m)).1.isSome then 1 else 0) := by
  cases fp with
  | none => simp [log_event, afterLog]
  | some s =>
      cases hp : parseIntStr s with
      | none => simp [log_event, afterLog, hp]
      | some k => simp [log_event, afterLog, hp]

/-- The enrollment insert never succeeds: the submitted `name=None` violates
the NOT NULL constraint whenever the fingerprint conversion did not already
raise. -/
theorem createUser_never_ok (db : DBState) (r f : String) (u : User) (db1 : DBState) :
    createUser db r f ≠ Except.ok (u, db1) := by
  unfold createUser
  split
  · simp
  · split
    · simp
    · split
      · simp
      · simp

/-- The enrollment insert always raises, with some exception text. -/
theorem createUser_always_error (db : DBState) (r f : String) :
    ∃ e, createUser db r f = Except.error e := by
  unfold createUser
  split
  · exact ⟨_, rfl⟩
  · split
    · exact ⟨_, rfl⟩
    · split
      · exact ⟨_, rfl⟩
      · exact ⟨_, rfl⟩

/-- Every response the enrollment handler actually produces has status 400:
the 201 branch is dead code because the insert always raises. -/
theorem addUser_response_always_400 (db : DBState) (req : AddUserRequest) (r : Response)
    (h : (addUserFromDevice db req).1 = some r) : r.code = 400 := by
  unfold addUserFromDevice afterLog at h
  split at h
  · split at h
    · simp at h
    · simp at h
      subst h
      rfl
  · split at h
    · split at h
      · simp at h
      · simp at h
        subst h
        rfl
    · rename_i heq
      exact absurd heq (createUser_never_ok _ _ _ _ _)

/-- Claim C1 (code bug evidence): with exactly one schedule row for
`(u0, 2025-01-01)` whose `used` flag is `false`, a correct dispense call
returns 200 with the row's dosage, and the immediately repeated identical call
against the resulting state again returns 200 with the dosage — not the 403
the specification and the repository's own test
`test_user_tries_to_get_dosage_twice` require. -/
theorem C1_second_dispense_also_returns_200 :
    (handleRequest db0 okReq).1 = some ⟨200, RespBody.successDosage 5⟩ ∧
    (handleRequest (handleRequest db0 okReq).2 okReq).1 =
      some ⟨200, RespBody.successDosage 5⟩ ∧
    (handleRequest (handleRequest db0 okReq).2 okReq).1 ≠
      some ⟨403, RespBody.msg "No dosage defined for the specified date"⟩ := by
  decide

/-- Claim C2 (code bug evidence): a dispense call that passes all four checks
returns 200 with `status="success"` and the row's dosage, but the handler
leaves the schedule table — and in particular the matched row's `used`
(consumed) flag — completely unchanged, contradicting the specification and
the repository's own test `test_handle_request_success`. -/
theorem C2_success_leaves_used_flag_false :
    (handleRequest db0 okReq).1 = some ⟨200, RespBody.successDosage 5⟩ ∧
    (handleRequest db0 okReq).2.schedules = [sched0] ∧
    sched0.used = false := by
  decide

/-- Claim C10: when all three fields are present and truthy, the RFID resolves
to a user, and the submitted fingerprint is not parseable as an integer, the
handler aborts on the unguarded `int(fp)` conversion: no response with any of
the specified status codes is produced and the database — in particular the
audit log — is left untouched. -/
theorem C10_unparseable_fingerprint_aborts (db : DBState) (req : DispenseRequest)
    (u : User)
    (hpresent :
      (truthy req.rfid_code && truthy req.fingerprint_id && truthy req.timestamp) = true)
    (huser : findUserByRfid db (req.rfid_code.getD "") = some u)
    (hparse : parseIntStr (req.fingerprint_id.getD "") = none) :
    handleRequest db req = (none, db) := by
  unfold handleRequest
  simp [hpresent, huser, hparse]

/-- Witness for C10 at a concrete input: user `u0` is enrolled, the RFID
matches, the fingerprint value `"abc"` is not an integer literal; the handler
produces no response and writes nothing. -/
theorem C10_unparseable_fingerprint_aborts_witness :
    handleRequest db0 badFpReq = (none, db0) :=
  C10_unparseable_fingerprint_aborts db0 badFpReq u0 (by decide) (by decide) (by decide)

/-- Claim C3, counterexample: the dispense invocation `badFpReq` against `db0`
(resolved RFID, unparseable fingerprint) creates zero EventLog entries, not
exactly one, refuting the audit-completeness invariant as stated. -/
theorem C3_counterexample_invocation_with_zero_logs :
    (handleRequest db0 badFpReq).2.logs.length = 0 ∧
    ¬ (handleRequest db0 badFpReq).2.logs.length = db0.logs.length + 1 := by
  decide

/-- Claim C3, amended: either handler's invocation creates exactly one
EventLog entry whenever it produces an HTTP response, and none when it is
aborted by an unhandled exception — the dispense handler's own `int(fp)`
conversion, or the fingerprint conversion inside the audit write itself
(in either handler). -/
theorem C3_exactly_one_log_per_completed_invocation (db : DBState)
    (dreq : DispenseRequest) (sreq : AddUserRequest) :
    ((handleRequest db dreq).2.logs.length =
        db.logs.length + (if (handleRequest db dreq).1.isSome then 1 else 0)) ∧
    ((addUserFromDevice db sreq).2.logs.length =
        db.logs.length + (if (addUserFromDevice db sreq).1.isSome then 1 else 0)) := by
  constructor
  · unfold handleRequest
    split
    · apply afterLog_log_count
    · split
      · apply afterLog_log_count
      · split
        · simp
        · split
          · apply afterLog_log_count
          · split
            · apply afterLog_log_count
            · apply afterLog_log_count
  · unfold addUserFromDevice
    split
    · apply afterLog_log_count
    · split
      · apply afterLog_log_count
      · rename_i heq
        exact absurd heq (createUser_never_ok _ _ _ _ _)

/-- Claim C5: with all three fields present and truthy, an RFID resolving to
user `u`, and a submitted fingerprint parsing to an integer different from
`u`'s stored fingerprint identifier, the response is 401 with message
"Fingerprint mismatch" and exactly one Failed audit row is appended, carrying
a reference to the resolved user (and the converted fingerprint value). -/
theorem C5_fingerprint_mismatch_401 (db : DBState) (req : DispenseRequest)
    (u : User) (n : Int)
    (hpresent :
      (truthy req.rfid_code && truthy req.fingerprint_id && truthy req.timestamp) = true)
    (huser : findUserByRfid db (req.rfid_code.getD "") = some u)
    (hparse : parseIntStr (req.fingerprint_id.getD "") = some n)
    (hne : u.fingerprint_id ≠ n) :
    (handleRequest db req).1 = some ⟨401, RespBody.msg "Fingerprint mismatch"⟩ ∧
    (handleRequest db req).2.logs =
      db.logs ++ [⟨"Authentication", some u.id, req.rfid_code, some n,
        "Failed", "Fingerprint mismatch"⟩] := by
  have hlog := log_event_of_parse db (some u.id) req.rfid_code req.fingerprint_id n
    "Failed" "Fingerprint mismatch" hparse
  unfold handleRequest
  simp [hpresent, huser, hparse, hne, hlog, afterLog]

/-- Witness for C5: correct RFID for `u0`, wrong fingerprint `99999`. -/
theorem C5_fingerprint_mismatch_401_witness :
    (handleRequest db0 ⟨some "RFID123456", some "99999", some "2025-01-01T10:30:00"⟩).1 =
      some ⟨401, RespBody.msg "Fingerprint mismatch"⟩ ∧
    (handleRequest db0 ⟨some "RFID123456", some "99999", some "2025-01-01T10:30:00"⟩).2.logs =
      [⟨"Authentication", some 0, some "RFID123456", some 99999,
        "Failed", "Fingerprint mismatch"⟩] :=
  C5_fingerprint_mismatch_401 db0
    ⟨some "RFID123456", some "99999", some "2025-01-01T10:30:00"⟩ u0 99999
    (by decide) (by decide) (by decide) (by decide)

/-- Claim C6, counterexample: on a present-fields dispense call with unknown
RFID and the non-integer fingerprint value `"abc"`, the audit write itself
raises converting the fingerprint for the `EventLog` IntegerField, so the
call produces no 404 response and writes no audit row at all. -/
theorem C6_counterexample_crash_in_audit_write :
    handleRequest db0 ⟨some "NOPE", some "abc", some "2025-01-01T10:30:00"⟩ = (none, db0) ∧
    (handleRequest db0 ⟨some "NOPE", some "abc", some "2025-01-01T10:30:00"⟩).1 ≠
      some ⟨404, RespBody.msg "RFID not found"⟩ := by
  decide

/-- Claim C6, amended: with all three fields present and truthy, a fingerprint
value that parses as an integer, and an RFID matching no user record, the
response is 404 with message "RFID not found" and exactly one Failed audit row
with a null user reference is appended. -/
theorem C6_unknown_rfid_404 (db : DBState) (req : DispenseRequest) (n : Int)
    (hpresent :
      (truthy req.rfid_code && truthy req.fingerprint_id && truthy req.timestamp) = true)
    (hparse : parseIntStr (req.fingerprint_id.getD "") = some n)
    (huser : findUserByRfid db (req.rfid_code.getD "") = none) :
    (handleRequest db req).1 = some ⟨404, RespBody.msg "RFID not found"⟩ ∧
    (handleRequest db req).2.logs =
      db.logs ++ [⟨"Authentication", none, req.rfid_code, some n,
        "Failed", "RFID not found"⟩] := by
  have hlog := log_event_of_parse db none req.rfid_code req.fingerprint_id n
    "Failed" "RFID not found" hparse
  unfold handleRequest
  simp [hpresent, huser, hlog, afterLog]

/-- Witness for the amended C6: an RFID enrolled for nobody, with an
integer-literal fingerprint. -/
theorem C6_unknown_rfid_404_witness :
    (handleRequest db0 ⟨some "NOPE", some "12345", some "2025-01-01T10:30:00"⟩).1 =
      some ⟨404, RespBody.msg "RFID not found"⟩ ∧
    (handleRequest db0 ⟨some "NOPE", some "12345", some "2025-01-01T10:30:00"⟩).2.logs =
      [⟨"Authentication", none, some "NOPE", some 12345, "Failed", "RFID not found"⟩] :=
  C6_unknown_rfid_404 db0 ⟨some "NOPE", some "12345", some "2025-01-01T10:30:00"⟩ 12345
    (by decide) (by decide) (by decide)

/-- Claim C7, counterexample: the empty-string fingerprint is falsy, so this
call is in the claim's missing-field domain, yet the audit write raises on
`int("")` for the `EventLog` IntegerField: no 400 response and no audit row. -/
theorem C7_counterexample_empty_fingerprint_crash :
    handleRequest db0 ⟨some "RFID123456", some "", some "2025-01-01T10:30:00"⟩ =
      (none, db0) ∧
    (handleRequest db0 ⟨some "RFID123456", some "", some "2025-01-01T10:30:00"⟩).1 ≠
      some ⟨400, RespBody.msg "Missing required fields"⟩ := by
  decide

/-- Claim C7, amended: when any of the three dispense fields is absent or
falsy and the submitted fingerprint value is absent or an integer literal (so
the audit write itself succeeds), the response is 400 with message
"Missing required fields", exactly one Failed audit row with a null user
reference is appended, and the user and schedule tables are left completely
unchanged; a present non-integer fingerprint (including the empty string)
instead makes the audit write raise, ending the call with no response and no
row. -/
theorem C7_missing_fields_leave_state_unchanged (db : DBState) (req : DispenseRequest)
    (hmissing :
      (truthy req.rfid_code && truthy req.fingerprint_id && truthy req.timestamp) = false)
    (hfp : req.fingerprint_id = none ∨
           ∃ n, parseIntStr (req.fingerprint_id.getD "") = some n) :
    (handleRequest db req).1 = some ⟨400, RespBody.msg "Missing required fields"⟩ ∧
    (∃ fpv, (handleRequest db req).2.logs =
      db.logs ++ [⟨"Authentication", none, req.rfid_code, fpv,
        "Failed", "Missing required fields"⟩]) ∧
    (handleRequest db req).2.users = db.users ∧
    (handleRequest db req).2.schedules = db.schedules := by
  have hlog : ∃ fpv, log_event db none req.rfid_code req.fingerprint_id "Failed"
      "Missing required fields" =
      some { db with logs := db.logs ++ [⟨"Authentication", none, req.rfid_code, fpv,
        "Failed", "Missing required fields"⟩] } := by
    rcases hfp with hnone | ⟨n, hp⟩
    · refine ⟨none, ?_⟩
      rw [hnone]
      exact log_event_none_fp db none req.rfid_code "Failed" "Missing required fields"
    · exact ⟨some n,
        log_event_of_parse db none req.rfid_code req.fingerprint_id n
          "Failed" "Missing required fields" hp⟩
  obtain ⟨fpv, hlog⟩ := hlog
  have hmain : handleRequest db req =
      (some ⟨400, RespBody.msg "Missing required fields"⟩,
       { db with logs := db.logs ++ [⟨"Authentication", none, req.rfid_code, fpv,
         "Failed", "Missing required fields"⟩] }) := by
    unfold handleRequest
    simp [hmissing, hlog, afterLog]
  rw [hmain]
  exact ⟨rfl, ⟨fpv, rfl⟩, rfl, rfl⟩

/-- Witness for the amended C7: a dispense call with the fingerprint field
absent. -/
theorem C7_missing_fields_leave_state_unchanged_witness :
    (handleRequest db0 ⟨some "RFID123456", none, some "2025-01-01T10:30:00"⟩).1 =
      some ⟨400, RespBody.msg "Missing required fields"⟩ ∧
    (handleRequest db0 ⟨some "RFID123456", none, some "2025-01-01T10:30:00"⟩).2.users =
      [u0] ∧
    (handleRequest db0 ⟨some "RFID123456", none, some "2025-01-01T10:30:00"⟩).2.schedules =
      [sched0] := by
  have h := C7_missing_fields_leave_state_unchanged db0
    ⟨some "RFID123456", none, some "2025-01-01T10:30:00"⟩ (by decide) (Or.inl rfl)
  exact ⟨h.1, h.2.2.1, h.2.2.2⟩

/-- Claim C4, counterexample: an enrollment call whose RFID already exists but
whose fingerprint value is the non-integer `"abc"`: the insert raises on the
fingerprint conversion, and then the audit write raises on the same
conversion — no 400 response, no new user, and zero audit rows, refuting the
claim on part of its domain. -/
theorem C4_counterexample_duplicate_rfid_nonint_fp :
    addUserFromDevice db0 ⟨some "RFID123456", some "abc"⟩ = (none, db0) ∧
    (addUserFromDevice db0 ⟨some "RFID123456", some "abc"⟩).1 ≠
      some ⟨400, RespBody.msg "RFID or fingerprint already exists"⟩ := by
  decide

/-- Claim C4, amended: an enrollment call with both fields present whose
fingerprint parses to integer `n`, and whose RFID or fingerprint `n` already
exists on some user record, creates no new User row, answers 400 with message
"RFID or fingerprint already exists", and appends exactly one Failed audit row
(whose message is the exception text) with a null user reference. -/
theorem C4_duplicate_enrollment_rejected (db : DBState) (req : AddUserRequest) (n : Int)
    (hr : truthy req.rfid_code = true) (hf : truthy req.fingerprint_id = true)
    (hparse : parseIntStr (req.fingerprint_id.getD "") = some n)
    (hdup : (∃ u ∈ db.users, u.rfid_code = req.rfid_code.getD "") ∨
            (∃ u ∈ db.users, u.fingerprint_id = n)) :
    (addUserFromDevice db req).1 =
      some ⟨400, RespBody.msg "RFID or fingerprint already exists"⟩ ∧
    (addUserFromDevice db req).2.users = db.users ∧
    ∃ e, (addUserFromDevice db req).2.logs =
      db.logs ++ [⟨"Authentication", none, req.rfid_code, some n, "Failed", e⟩] := by
  obtain ⟨e, he⟩ :=
    createUser_always_error db (req.rfid_code.getD "") (req.fingerprint_id.getD "")
  have hlog := log_event_of_parse db none req.rfid_code req.fingerprint_id n
    "Failed" e hparse
  have hmain : addUserFromDevice db req =
      (some ⟨400, RespBody.msg "RFID or fingerprint already exists"⟩,
       { db with logs := db.logs ++ [⟨"Authentication", none, req.rfid_code, some n,
         "Failed", e⟩] }) := by
    unfold addUserFromDevice
    simp [hr, hf, he, hlog, afterLog]
  rw [hmain]
  exact ⟨rfl, rfl, e, rfl⟩

/-- Witness for the amended C4: re-enrolling `u0`'s RFID with a different,
integer-literal fingerprint. -/
theorem C4_duplicate_enrollment_rejected_witness :
    (addUserFromDevice db0 ⟨some "RFID123456", some "67890"⟩).1 =
      some ⟨400, RespBody.msg "RFID or fingerprint already exists"⟩ ∧
    (addUserFromDevice db0 ⟨some "RFID123456", some "67890"⟩).2.users = [u0] := by
  have h := C4_duplicate_enrollment_rejected db0 ⟨some "RFID123456", some "67890"⟩ 67890
    (by decide) (by decide) (by decide) (Or.inl ⟨u0, by decide, by decide⟩)
  exact ⟨h.1, h.2.1⟩

/-- Claim C8 (code bug evidence): an enrollment call with a fresh RFID and a
fresh integer-literal fingerprint does not get the specified 201 success — the
insert always raises the NOT NULL violation on `name` (the handler passes
`name=None` into a non-nullable column), the blanket `except` answers 400
"RFID or fingerprint already exists", and no User row is created, contradicting
the specification and the repository's own test `test_add_user_success`. -/
theorem C8_enrollment_always_rejected :
    (addUserFromDevice dbEmpty ⟨some "R1", some "42"⟩).1 =
      some ⟨400, RespBody.msg "RFID or fingerprint already exists"⟩ ∧
    (addUserFromDevice dbEmpty ⟨some "R1", some "42"⟩).2.users = [] ∧
    (addUserFromDevice dbEmpty ⟨some "R1", some "42"⟩).1 ≠
      some ⟨201, RespBody.successMsg "User added successfully"⟩ := by
  decide

/-- Claim C9, counterexample: enrolling a fresh RFID with the present but
non-integer fingerprint "abc" does not produce the claimed 400 "Missing
required fields" — the insert raises on the fingerprint conversion and the
audit write in the `except` branch raises on the same conversion, so the call
ends with no response and no audit row. -/
theorem C9_counterexample_nonint_fp_message :
    addUserFromDevice dbEmpty badFpAdd = (none, dbEmpty) ∧
    (addUserFromDevice dbEmpty badFpAdd).1 ≠
      some ⟨400, RespBody.msg "Missing required fields"⟩ := by
  decide

/-- Claim C9, amended: the validation step only checks that RFID and
fingerprint are present and truthy.  A call failing it answers 400 "Missing
required fields" with one Failed no-user audit row and no new User row — but
only when the submitted fingerprint is absent or an integer literal; a call
with a present non-integer fingerprint ends with no response and no row at
all, whether it fails validation or passes it (in the latter case the insert
raises first, then the audit write raises).  No call is ever accepted: every
response the enrollment handler produces has status 400, so in particular no
call with an unparseable fingerprint is accepted. -/
theorem C9_enrollment_validation_amended (db : DBState) (req : AddUserRequest) :
    ((truthy req.rfid_code && truthy req.fingerprint_id) = false →
      (req.fingerprint_id = none ∨
        ∃ n, parseIntStr (req.fingerprint_id.getD "") = some n) →
      (addUserFromDevice db req).1 = some ⟨400, RespBody.msg "Missing required fields"⟩ ∧
      (addUserFromDevice db req).2.users = db.users ∧
      ∃ fpv, (addUserFromDevice db req).2.logs =
        db.logs ++ [⟨"Authentication", none, req.rfid_code, fpv,
          "Failed", "Missing required fields for user creation"⟩]) ∧
    (parseIntStr (req.fingerprint_id.getD "") = none →
      truthy req.fingerprint_id = true →
      addUserFromDevice db req = (none, db)) ∧
    (∀ r, (addUserFromDevice db req).1 = some r → r.code = 400) := by
  refine ⟨?_, ?_, ?_⟩
  · intro h hfp
    have hlog : ∃ fpv, log_event db none req.rfid_code req.fingerprint_id "Failed"
        "Missing required fields for user creation" =
        some { db with logs := db.logs ++ [⟨"Authentication", none, req.rfid_code, fpv,
          "Failed", "Missing required fields for user creation"⟩] } := by
      rcases hfp with hnone | ⟨n, hp⟩
      · refine ⟨none, ?_⟩
        rw [hnone]
        exact log_event_none_fp db none req.rfid_code "Failed"
          "Missing required fields for user creation"
      · exact ⟨some n,
          log_event_of_parse db none req.rfid_code req.fingerprint_id n
            "Failed" "Missing required fields for user creation" hp⟩
    obtain ⟨fpv, hlog⟩ := hlog
    have hmain : addUserFromDevice db req =
        (some ⟨400, RespBody.msg "Missing required fields"⟩,
         { db with logs := db.logs ++ [⟨"Authentication", none, req.rfid_code, fpv,
           "Failed", "Missing required fields for user creation"⟩] }) := by
      unfold addUserFromDevice
      simp [h, hlog, afterLog]
    rw [hmain]
    exact ⟨rfl, rfl, fpv, rfl⟩
  · intro hp htf
    have hlogfail : ∀ (u : Option Nat) (st m : String),
        log_event db u req.rfid_code req.fingerprint_id st m = none := by
      intro u st m
      cases hfp' : req.fingerprint_id with
      | none =>
          rw [hfp'] at htf
          simp [truthy] at htf
      | some s =>
          rw [hfp'] at hp
          simp only [Option.getD_some] at hp
          simp [log_event, hp]
    cases hb : (truthy req.rfid_code && truthy req.fingerprint_id) with
    | false =>
        unfold addUserFromDevice
        simp [hb, hlogfail, afterLog]
    | true =>
        have he : createUser db (req.rfid_code.getD "") (req.fingerprint_id.getD "") =
            Except.error "invalid literal for int with base 10" := by
          unfold createUser
          simp [hp]
        unfold addUserFromDevice
        simp [hb, he, hlogfail, afterLog]
  · intro r hr
    exact addUser_response_always_400 db req r hr

/-- Witness for the amended C9: a call with the fingerprint absent gets
"Missing required fields"; a call with the non-integer fingerprint "abc"
produces no response at all. -/
theorem C9_enrollment_validation_amended_witness :
    (addUserFromDevice dbEmpty ⟨some "R1", none⟩).1 =
      some ⟨400, RespBody.msg "Missing required fields"⟩ ∧
    (addUserFromDevice dbEmpty badFpAdd).1 = none := by
  refine ⟨((C9_enrollment_validation_amended dbEmpty ⟨some "R1", none⟩).1
    (by decide) (Or.inl rfl)).1, ?_⟩
  have h := (C9_enrollment_validation_amended dbEmpty badFpAdd).2.1 (by decide) (by decide)
  rw [h]

end DrugBox
